import Mathlib

/-!
Verification of the mofa_graph_rag operator pipeline
(`src/mofa_graph_rag/script/*.py`).

The development shallowly embeds the pieces of the code that the
specification talks about:

* the standardized output envelope (`create_agent_output` /
  `load_node_result`) over a JSON-like `Value` type;
* the three ad hoc retry loops (`download_dataset`,
  `call_llm_for_questions`, `_process_single_query`), parameterized by the
  outcome of each attempt, instrumented with the number of invocations and
  the number of inter-attempt sleeps;
* the question-extraction function `extract_queries` (the fixed regex
  `-\s*Question\s*\d+:\s*(.+)` with IGNORECASE|MULTILINE, after removing
  every occurrence of `**`);
* the `on_event` handlers of the four operators
  (`data_prep_operator`, `question_gen_operator`, `rag_query_operator`,
  `result_logger_operator`), with the filesystem, configuration loading,
  dependency setup and the stage task abstracted into an environment
  record, and the handler returning the new state, the emitted outputs,
  the `DoraStatus` and how many times the main stage task ran;
* the result/error persistence step of
  `Operator._run_queries_and_save_task` in the query operator.
-/

/-- The status an operator returns to the dora host after each event. -/
inductive DoraStatus where
  | CONTINUE
  | STOP
deriving DecidableEq, Repr

/-- JSON-like values: the payloads that flow between operators. -/
inductive Value where
  | str (s : String)
  | int (n : Int)
  | bool (b : Bool)
  | null
  | list (xs : List Value)
  | dict (kvs : List (String × Value))

/-- First-match association-list lookup, the model of `key in d` /
`d[key]` on a python dict (whose keys are unique). -/
def lookupKey : List (String × Value) → String → Option Value
  | [], _ => Option.none
  | (k, v) :: rest, key => if k == key then some v else lookupKey rest key

/-- `create_agent_output` (fallback definition in `data_prep_operator.py`
lines 34-39 and the identical copies in the other operators): wraps a
result into the `{agent_name, agent_result, dataflow_status}` envelope. -/
def create_agent_output (agent_name : String) (agent_result : Value)
    (dataflow_status : Bool) : Value :=
  .dict [("agent_name", .str agent_name),
         ("agent_result", agent_result),
         ("dataflow_status", .bool dataflow_status)]

/-- `load_node_result` (`result_logger_operator.py` lines 21-30, and the
identical fallback copies): if the input is a dict containing the key
`"agent_result"`, return that entry; otherwise return the input as is. -/
def load_node_result : Value → Value
  | .dict kvs =>
    match lookupKey kvs "agent_result" with
    | some r => r
    | Option.none => .dict kvs
  | v => v

/-- A value is envelope-shaped exactly when it is a dict containing the
key `"agent_result"` — the sole test `load_node_result` performs. -/
def isEnvelopeShaped : Value → Bool
  | .dict kvs => (lookupKey kvs "agent_result").isSome
  | _ => false

/-! ## Retry loops

Each loop is parameterized by `op : Nat → Attempt _`, the outcome of the
attempt with 0-based index `retries`, mirroring the python
`while retries < max_retries: try: ... except: retries += 1; ...` shape.
The loops are written by structural recursion on
`remaining = max_retries - retries` and return, besides the python return
value, the number of invocations of the operation and the number of
inter-attempt sleeps. -/

/-- Outcome of one attempt of a fallible operation: success with a value,
or a raised exception carrying a message. -/
inductive Attempt (α : Type) where
  | ok (a : α)
  | fail (e : String)

/-- Loop body of `download_dataset` (`data_prep_operator.py` lines 42-67).
On success return `True`; after the final failed attempt, return `True`
if the local directory already exists and is non-empty
(`os.path.exists(local_dir) and os.listdir(local_dir)`), else `False`;
between attempts, `time.sleep(delay)` (counted, not performed). -/
def downloadLoop (op : Nat → Attempt Unit) (dirNonEmpty : Bool)
    (retries : Nat) : Nat → Bool × Nat × Nat
  | 0 => (false, 0, 0)
  | remaining + 1 =>
    match op retries with
    | .ok _ => (true, 1, 0)
    | .fail _ =>
      match remaining with
      | 0 => (dirNonEmpty, 1, 0)
      | r + 1 =>
        let res := downloadLoop op dirNonEmpty (retries + 1) (r + 1)
        (res.1, res.2.1 + 1, res.2.2 + 1)

/-- `download_dataset(repo_id, local_dir, max_retries, delay)`: returns
`(python return value, number of download invocations, number of sleeps)`. -/
def download_dataset (op : Nat → Attempt Unit) (dirNonEmpty : Bool)
    (maxRetries : Nat) : Bool × Nat × Nat :=
  downloadLoop op dirNonEmpty 0 maxRetries

/-- Loop body of `call_llm_for_questions`
(`question_gen_operator.py` lines 98-121): on success return the LLM
content, after the final failed attempt return `None`. -/
def llmLoop (op : Nat → Attempt String) (retries : Nat) :
    Nat → Option String × Nat × Nat
  | 0 => (Option.none, 0, 0)
  | remaining + 1 =>
    match op retries with
    | .ok s => (some s, 1, 0)
    | .fail _ =>
      match remaining with
      | 0 => (Option.none, 1, 0)
      | r + 1 =>
        let res := llmLoop op (retries + 1) (r + 1)
        (res.1, res.2.1 + 1, res.2.2 + 1)

/-- `call_llm_for_questions(client, model, prompt, max_retries, delay)`:
returns `(content or None, invocations, sleeps)`. -/
def call_llm_for_questions (op : Nat → Attempt String) (maxRetries : Nat) :
    Option String × Nat × Nat :=
  llmLoop op 0 maxRetries

/-- A `{query, result}` record appended to `results_list`. -/
structure QueryResult where
  query : String
  result : String
deriving DecidableEq, Repr

/-- A `{query, error}` record appended to `errors_list`. -/
structure QueryError where
  query : String
  error : String
deriving DecidableEq, Repr

/-- Loop body of `Operator._process_single_query`
(`rag_query_operator.py` lines 218-249): on success return
`({query, result}, None)`; after the final failed attempt return
`(None, {query, error: str(e)})`; if the loop never runs
(`max_retries = 0`) return `(None, {query, error: "Query failed after
retries"})`. -/
def pqLoop (op : Nat → Attempt String) (q : String) (retries : Nat) :
    Nat → (Option QueryResult × Option QueryError) × Nat × Nat
  | 0 => ((Option.none, some ⟨q, "Query failed after retries"⟩), 0, 0)
  | remaining + 1 =>
    match op retries with
    | .ok res => ((some ⟨q, res⟩, Option.none), 1, 0)
    | .fail e =>
      match remaining with
      | 0 => ((Option.none, some ⟨q, e⟩), 1, 0)
      | r + 1 =>
        let res := pqLoop op q (retries + 1) (r + 1)
        (res.1, res.2.1 + 1, res.2.2 + 1)

/-- `_process_single_query(query_text, query_param)` with
`max_retries = QUERY_MAX_RETRIES`: returns
`((result record or None, error record or None), invocations, sleeps)`. -/
def process_single_query (op : Nat → Attempt String) (q : String)
    (maxRetries : Nat) : (Option QueryResult × Option QueryError) × Nat × Nat :=
  pqLoop op q 0 maxRetries

/-! ## Question extraction (`rag_query_operator.py` lines 69-93)

`extract_queries` reads the questions file, removes every `**`, then runs
`re.findall(r"-\s*Question\s*\d+:\s*(.+)", data, re.IGNORECASE | re.MULTILINE)`
and keeps the stripped, non-empty captures.  The fixed pattern is embedded
directly as a scanner over the character list: `\s` is python whitespace,
`.` does not match a newline, `findall` collects non-overlapping matches
left to right. -/

/-- Python `\s` for the ASCII whitespace characters appearing here. -/
def isPySpace (c : Char) : Bool :=
  c = ' ' || c = '\t' || c = '\n' || c = '\r' || c = '\x0b' || c = '\x0c'

/-- `data.replace("**", "")`: remove non-overlapping `**` pairs left to right. -/
def removeDoubleStar : List Char → List Char
  | '*' :: '*' :: rest => removeDoubleStar rest
  | c :: rest => c :: removeDoubleStar rest
  | [] => []

/-- Case-insensitive match of the literal word `Question`; returns the rest. -/
def matchQuestionWord (cs : List Char) : Option (List Char) :=
  match cs with
  | c1 :: c2 :: c3 :: c4 :: c5 :: c6 :: c7 :: c8 :: rest =>
    if c1.toLower = 'q' && c2.toLower = 'u' && c3.toLower = 'e' &&
       c4.toLower = 's' && c5.toLower = 't' && c6.toLower = 'i' &&
       c7.toLower = 'o' && c8.toLower = 'n' then some rest else Option.none
  | _ => Option.none

/-- Try to match `-\s*Question\s*\d+:\s*(.+)` at the head of the input;
on success return the capture (the `(.+)` group: the non-empty run of
non-newline characters after the greedily skipped whitespace) and the
rest of the input after the match. -/
def matchQuestionPattern (cs : List Char) : Option (List Char × List Char) :=
  match cs with
  | '-' :: cs1 =>
    match matchQuestionWord (cs1.dropWhile isPySpace) with
    | Option.none => Option.none
    | some cs2 =>
      let cs3 := cs2.dropWhile isPySpace
      if (cs3.takeWhile Char.isDigit).isEmpty then Option.none
      else
        match cs3.dropWhile Char.isDigit with
        | ':' :: cs4 =>
          let cs5 := cs4.dropWhile isPySpace
          let cap := cs5.takeWhile (fun c => c ≠ '\n')
          if cap.isEmpty then Option.none
          else some (cap, cs5.dropWhile (fun c => c ≠ '\n'))
        | _ => Option.none
  | _ => Option.none

/-- `re.findall` for the fixed pattern: scan left to right, collecting
non-overlapping matches.  Fuel-indexed (called with the input length; a
successful match always consumes at least one character). -/
def findQuestionMatches : Nat → List Char → List (List Char)
  | 0, _ => []
  | _ + 1, [] => []
  | fuel + 1, c :: rest =>
    match matchQuestionPattern (c :: rest) with
    | some (cap, after) => cap :: findQuestionMatches fuel after
    | Option.none => findQuestionMatches fuel rest

/-- Python `str.strip()`: drop leading and trailing whitespace. -/
def stripChars (cs : List Char) : List Char :=
  ((cs.dropWhile isPySpace).reverse.dropWhile isPySpace).reverse

/-- `extract_queries(file_path)` applied to the file's content:
remove `**`, findall the question pattern, keep stripped non-empty
captures. -/
def extract_queries (content : String) : List String :=
  let data := removeDoubleStar content.data
  let found := findQuestionMatches data.length data
  ((found.map stripChars).filter (fun l => ¬l.isEmpty)).map List.asString

/-! ## Operator `on_event` handlers

Each handler is a function from an environment (abstracting the
filesystem, the YAML configuration, dependency construction and the main
stage task), the current operator state, and one dora event, to a
`StepResult`: the new state, the outputs passed to `send_output`, the
returned `DoraStatus`, and how many times the main stage task ran during
the step (0 or 1). -/

/-- Result of one `on_event` call. -/
structure StepResult (S : Type) where
  state : S
  outputs : List (String × Value)
  status : DoraStatus
  runs : Nat

/-! ### `data_prep_operator.py` -/

/-- The `DATA_PREP` configuration section, restricted to the fields the
control flow reads (`DOWNLOAD_DIR`/`OUTPUT_DIR` resolved,
`SKIP_DOWNLOAD` defaulting to false). -/
structure DPConfig where
  downloadDir : String
  outputDir : String
  skipDownload : Bool
deriving DecidableEq, Repr

/-- Environment of the data-prep operator: result of `load_config`
(`None` on failure), result of `download_dataset(repo_id, download_dir)`,
whether the download directory exists and is non-empty, and whether the
main try-block raises before producing output. -/
structure DPEnv where
  loadConfig : Option DPConfig
  downloadResult : Bool
  dirNonEmpty : Bool
  mainLogicRaises : Bool

/-- Mutable state of the data-prep operator (`__init__`, lines 144-147). -/
structure DPState where
  config : Option DPConfig
  processed : Bool
deriving DecidableEq, Repr

/-- Initial data-prep state (`self.config = None; self.processed = False`). -/
def dpInit : DPState := ⟨Option.none, false⟩

/-- Dora events as the handlers see them. -/
inductive DPEvent where
  | input (id : String)
  | stop
  | error
  | unknown

/-- `Operator.on_event` of `data_prep_operator.py` (lines 188-297).
Extraction success only affects logging, not the emitted output or the
status, and is therefore not part of the environment. -/
def dataPrepOnEvent (env : DPEnv) (st : DPState) : DPEvent → StepResult DPState
  | .input _ =>
    if st.processed then ⟨st, [], .CONTINUE, 0⟩
    else
      let cfg? := match st.config with
        | some c => some c
        | Option.none => env.loadConfig
      match cfg? with
      | Option.none => ⟨st, [], .STOP, 0⟩
      | some cfg =>
        let st1 : DPState := ⟨some cfg, st.processed⟩
        if env.mainLogicRaises then ⟨⟨st1.config, true⟩, [], .STOP, 1⟩
        else
          let downloadSuccessful :=
            if ¬cfg.skipDownload then env.downloadResult else env.dirNonEmpty
          if downloadSuccessful then
            ⟨⟨st1.config, true⟩,
             [("unique_contexts_dir",
               create_agent_output "data_prep" (.str cfg.outputDir) false)],
             .STOP, 1⟩
          else
            ⟨⟨st1.config, true⟩, [], .STOP, 1⟩
  | _ => ⟨st, [], .CONTINUE, 0⟩

/-! ### `question_gen_operator.py` -/

/-- Environment of the question-gen operator: whether `load_config`
succeeds, whether `_setup_dependencies` succeeds, and the result of the
main async task `_generate_questions_task` (the output questions file
path, or `None` on any failure, including an invalid input directory). -/
structure QGEnv where
  loadConfigOk : Bool
  setupDepsOk : Bool
  taskResult : Option String

/-- Mutable state of the question-gen operator (`__init__`, lines
129-135), with `config` and `deps` as presence flags (`deps` stands for
tokenizer and LLM client together, which are set and reset together). -/
structure QGState where
  config : Bool
  deps : Bool
  processed : Bool
deriving DecidableEq, Repr

/-- Initial question-gen state. -/
def qgInit : QGState := ⟨false, false, false⟩

/-- `Operator.on_event` of `question_gen_operator.py` (lines 291-376). -/
def questionGenOnEvent (env : QGEnv) (st : QGState) : DPEvent → StepResult QGState
  | .input id =>
    if id == "unique_contexts_dir" then
      if st.processed then ⟨st, [], .CONTINUE, 0⟩
      else if ¬st.config && ¬env.loadConfigOk then ⟨st, [], .STOP, 0⟩
      else
        let st1 : QGState := ⟨true, st.deps, st.processed⟩
        if ¬st1.deps && ¬env.setupDepsOk then ⟨st1, [], .STOP, 0⟩
        else
          let st2 : QGState := ⟨st1.config, true, st1.processed⟩
          match env.taskResult with
          | some p =>
            ⟨⟨st2.config, st2.deps, true⟩,
             [("generated_questions_file",
               create_agent_output "question_generator" (.str p) false)],
             .STOP, 1⟩
          | Option.none => ⟨⟨st2.config, st2.deps, true⟩, [], .STOP, 1⟩
    else ⟨st, [], .CONTINUE, 0⟩
  | _ => ⟨st, [], .CONTINUE, 0⟩

/-! ### `rag_query_operator.py` -/

/-- Environment of the rag-query operator: the filesystem checks
`os.path.isfile` / `os.path.isdir`, whether `load_config` and
`_setup_async_funcs` succeed, and the `(results_path, errors_path)`
returned by `_run_queries_and_save_task` for the two gathered inputs
(`None` components on failure). -/
structure RQEnv where
  isfile : String → Bool
  isdir : String → Bool
  loadConfigOk : Bool
  setupFuncsOk : Bool
  taskResult : String → String → Option String × Option String

/-- Mutable state of the rag-query operator (`__init__`, lines 102-111);
`funcs` stands for `llm_model_func` and `embedding_func_wrapper`, set
together by `_setup_async_funcs`. -/
structure RQState where
  config : Bool
  funcs : Bool
  questionsFile : Option String
  ragIndexDir : Option String
  processed : Bool
deriving DecidableEq, Repr

/-- Initial rag-query state. -/
def rqInit : RQState := ⟨false, false, Option.none, Option.none, false⟩

/-- Dora events for the rag-query operator: an input carries the payload
already unwrapped by `load_node_result` (a path string). -/
inductive RQEvent where
  | input (id : String) (payload : String)
  | stop
  | error
  | unknown

/-- Lines 354-420 of `rag_query_operator.py`: after an offered input has
(or has not) been recorded, check `questions_file_path and rag_index_dir
and not processed`; if released, lazily load config and async funcs
(failures return STOP without touching `processed`), run the main task,
emit the result envelope only when both output paths are present, and set
`processed = True`; otherwise fall through to CONTINUE. -/
def ragQueryAfterStore (env : RQEnv) (st : RQState) : StepResult RQState :=
  match st.questionsFile, st.ragIndexDir with
  | some qf, some rd =>
    if st.processed then ⟨st, [], .CONTINUE, 0⟩
    else if ¬st.config && ¬env.loadConfigOk then ⟨st, [], .STOP, 0⟩
    else
      let st1 : RQState := ⟨true, st.funcs, st.questionsFile, st.ragIndexDir, st.processed⟩
      if ¬st1.funcs && ¬env.setupFuncsOk then ⟨st1, [], .STOP, 0⟩
      else
        let st2 : RQState := ⟨st1.config, true, st1.questionsFile, st1.ragIndexDir, st1.processed⟩
        match env.taskResult qf rd with
        | (some rp, some ep) =>
          ⟨⟨st2.config, st2.funcs, st2.questionsFile, st2.ragIndexDir, true⟩,
           [("query_results",
             create_agent_output "rag_query_evaluator"
               (.dict [("results_file", .str rp), ("errors_file", .str ep)]) true)],
           .STOP, 1⟩
        | _ => ⟨⟨st2.config, st2.funcs, st2.questionsFile, st2.ragIndexDir, true⟩, [], .STOP, 1⟩
  | _, _ => ⟨st, [], .CONTINUE, 0⟩

/-- `Operator.on_event` of `rag_query_operator.py` (lines 320-430): an
input on `generated_questions_file` is recorded iff `os.path.isfile`
holds of the payload, one on `rag_index_dir` iff `os.path.isdir` holds;
any other input id returns CONTINUE immediately; then the release check
runs. -/
def ragQueryOnEvent (env : RQEnv) (st : RQState) : RQEvent → StepResult RQState
  | .input id payload =>
    if id == "generated_questions_file" then
      ragQueryAfterStore env
        (if env.isfile payload then
          ⟨st.config, st.funcs, some payload, st.ragIndexDir, st.processed⟩
         else st)
    else if id == "rag_index_dir" then
      ragQueryAfterStore env
        (if env.isdir payload then
          ⟨st.config, st.funcs, st.questionsFile, some payload, st.processed⟩
         else st)
    else ⟨st, [], .CONTINUE, 0⟩
  | _ => ⟨st, [], .CONTINUE, 0⟩

/-- Deliver a list of events in order, accumulating the emitted outputs
and the number of main-task runs. -/
def ragQueryRun (env : RQEnv) (st : RQState) :
    List RQEvent → RQState × List (String × Value) × Nat
  | [] => (st, [], 0)
  | ev :: rest =>
    let r := ragQueryOnEvent env st ev
    let rec' := ragQueryRun env r.state rest
    (rec'.1, r.outputs ++ rec'.2.1, r.runs + rec'.2.2)

/-! ### `result_logger_operator.py` -/

/-- Mutable state of the result-logger operator. -/
structure RLState where
  processed : Bool
deriving DecidableEq, Repr

/-- `Operator.on_event` of `result_logger_operator.py` (lines 44-120):
a first input marks `processed = True` and returns STOP whether the
logging body succeeds or raises (both paths are identical observably);
later inputs and other events return CONTINUE; the node never calls
`send_output`. -/
def resultLoggerOnEvent (st : RLState) : DPEvent → StepResult RLState
  | .input _ =>
    if st.processed then ⟨st, [], .CONTINUE, 0⟩
    else ⟨⟨true⟩, [], .STOP, 1⟩
  | _ => ⟨st, [], .CONTINUE, 0⟩

/-! ### Result persistence (`rag_query_operator.py` lines 281-317) -/

/-- Outcome of a `json.dump` call: success, a `TypeError`
(serialization failure), or any other exception. -/
inductive WriteOutcome where
  | ok
  | typeError (msg : String)
  | otherError (msg : String)

/-- Environment of the persistence step: the outcome of the primary
`json.dump` of `results_list` and of `errors_list`, and whether a
degraded `json.dump(..., default=str)` of each would succeed. -/
structure SaveEnv where
  resultsWrite : WriteOutcome
  resultsFallbackOk : Bool
  errorsWrite : WriteOutcome
  errorsFallbackOk : Bool

/-- Persisting `results_list` (lines 285-302): on `TypeError` retry with
`default=str`; on any other failure, or if the fallback also fails,
`results_file_path = None`. -/
def saveResults (env : SaveEnv) (resultsFilePath : String) : Option String :=
  match env.resultsWrite with
  | .ok => some resultsFilePath
  | .typeError _ => if env.resultsFallbackOk then some resultsFilePath else Option.none
  | .otherError _ => Option.none

/-- Persisting `errors_list` (lines 305-315): a single generic
`except Exception` sets `errors_file_path = None`; no degraded write is
attempted. -/
def saveErrors (env : SaveEnv) (errorsFilePath : String) : Option String :=
  match env.errorsWrite with
  | .ok => some errorsFilePath
  | .typeError _ => Option.none
  | .otherError _ => Option.none

/-- The behaviour claimed by the spec for the errors list, stated as its
own definition for comparison with `saveErrors`: the same
degraded-write-before-fatal handling as the results list, i.e. on a
serialization error attempt the `default=str` write and declare fatal
only if that also fails. -/
def saveErrorsClaimed (env : SaveEnv) (errorsFilePath : String) : Option String :=
  match env.errorsWrite with
  | .ok => some errorsFilePath
  | .typeError _ => if env.errorsFallbackOk then some errorsFilePath else Option.none
  | .otherError _ => Option.none

/-! ## Helper lemmas -/

/-- An always-failing download makes `k+1` attempts with `k` sleeps and
then returns the directory check. -/
theorem downloadLoop_allFail (op : Nat → Attempt Unit) (e : Nat → String)
    (hop : ∀ n, op n = .fail (e n)) (dirNE : Bool) :
    ∀ (k retries : Nat), downloadLoop op dirNE retries (k + 1) = (dirNE, k + 1, k) := by
  intro k
  induction k with
  | zero => intro retries; simp [downloadLoop, hop retries]
  | succ n ih => intro retries; simp [downloadLoop, hop retries, ih (retries + 1)]

/-- An always-failing LLM call makes `k+1` attempts with `k` sleeps and
returns `None`. -/
theorem llmLoop_allFail (op : Nat → Attempt String) (e : Nat → String)
    (hop : ∀ n, op n = .fail (e n)) :
    ∀ (k retries : Nat), llmLoop op retries (k + 1) = (Option.none, k + 1, k) := by
  intro k
  induction k with
  | zero => intro retries; simp [llmLoop, hop retries]
  | succ n ih => intro retries; simp [llmLoop, hop retries, ih (retries + 1)]

/-- An always-failing query makes `k+1` attempts with `k` sleeps and
returns the error record of the last attempt. -/
theorem pqLoop_allFail (op : Nat → Attempt String) (e : Nat → String)
    (hop : ∀ n, op n = .fail (e n)) (q : String) :
    ∀ (k retries : Nat),
      pqLoop op q retries (k + 1) =
        ((Option.none, some ⟨q, e (retries + k)⟩), k + 1, k) := by
  intro k
  induction k with
  | zero => intro retries; simp [pqLoop, hop retries]
  | succ n ih =>
    intro retries
    simp only [pqLoop, hop retries, ih (retries + 1)]
    have harith : retries + 1 + n = retries + (n + 1) := by omega
    simp [harith]

/-! ## Claims -/

/-- C4: unwrapping the envelope produced by wrap returns the result
unchanged for every value, including nested structures, and unwrap is the
identity on every value that is not envelope-shaped. -/
theorem C4_envelope_roundtrip :
    (∀ (name : String) (r : Value) (flag : Bool),
      load_node_result (create_agent_output name r flag) = r) ∧
    (∀ v : Value, isEnvelopeShaped v = false → load_node_result v = v) := by
  constructor
  · intro name r flag
    rfl
  · intro v h
    cases v with
    | dict kvs =>
      have h' : lookupKey kvs "agent_result" = Option.none := by
        simpa [isEnvelopeShaped, Option.isSome_iff_exists] using h
      simp [load_node_result, h']
    | str s => rfl
    | int n => rfl
    | bool b => rfl
    | null => rfl
    | list xs => rfl

/-- Witness for C4 at a nested result and a non-envelope raw value. -/
theorem C4_envelope_roundtrip_witness :
    load_node_result
        (create_agent_output "stageX"
          (.dict [("xs", .list [.str "a", .int 3])]) false) =
      .dict [("xs", .list [.str "a", .int 3])] ∧
    isEnvelopeShaped (.str "raw-trigger") = false ∧
    load_node_result (.str "raw-trigger") = .str "raw-trigger" :=
  ⟨C4_envelope_roundtrip.1 "stageX" _ false, rfl,
   C4_envelope_roundtrip.2 (.str "raw-trigger") rfl⟩

/-- C10: `load_node_result` decides envelope shape solely by the presence
of the key `"agent_result"`: any dict containing it — with or without the
producer-name and is-final fields — unwraps to that entry. -/
theorem C10_unwrap_by_key_only :
    ∀ (kvs : List (String × Value)) (x : Value),
      lookupKey kvs "agent_result" = some x →
      load_node_result (.dict kvs) = x := by
  intro kvs x h
  simp [load_node_result, h]

/-- Witness for C10: a dict with only the `"agent_result"` key, not
produced by `create_agent_output`, still unwraps to the entry. -/
theorem C10_unwrap_by_key_only_witness :
    load_node_result (.dict [("agent_result", .str "v")]) = .str "v" :=
  C10_unwrap_by_key_only [("agent_result", .str "v")] (.str "v") rfl

/-- C7: on the questions text with the two `- Question N:` lines, the
extraction function returns exactly the two question strings in order. -/
theorem C7_extract_queries_example :
    extract_queries "- Question 1: What is X?\n- Question 2: How does Y work?\n" =
      ["What is X?", "How does Y work?"] := by
  decide

/-- C2 counterexample: with `max_retries = 3` and a download that fails
on every attempt, `download_dataset` makes the 3 attempts but — because
the local directory already exists and is non-empty — returns `True`
(success), not a failure result carrying the last error. -/
theorem C2_counterexample :
    download_dataset (fun _ => .fail "network error") true 3 = (true, 3, 2) := by
  rfl

/-- C2 (amended): for every `max_attempts = N ≥ 1` and always-failing
operations, each of the three retry loops makes exactly N invocations and
N−1 waits; `_process_single_query` then returns a failure record carrying
the last error, `call_llm_for_questions` returns `None` (carrying no
error), and `download_dataset` returns `False` unless the local directory
already exists and is non-empty, in which case it returns `True`. -/
theorem C2_amended_retry_bound :
    ∀ (N : Nat), 1 ≤ N →
    ∀ (opU : Nat → Attempt Unit) (opS : Nat → Attempt String)
      (eU eS : Nat → String) (q : String) (dirNE : Bool),
      (∀ n, opU n = .fail (eU n)) →
      (∀ n, opS n = .fail (eS n)) →
      download_dataset opU dirNE N = (dirNE, N, N - 1) ∧
      call_llm_for_questions opS N = (Option.none, N, N - 1) ∧
      process_single_query opS q N = ((Option.none, some ⟨q, eS (N - 1)⟩), N, N - 1) := by
  intro N hN opU opS eU eS q dirNE hU hS
  cases N with
  | zero => omega
  | succ k =>
    refine ⟨?_, ?_, ?_⟩
    · simpa [download_dataset] using downloadLoop_allFail opU eU hU dirNE k 0
    · simpa [call_llm_for_questions] using llmLoop_allFail opS eS hS k 0
    · simpa [process_single_query] using pqLoop_allFail opS eS hS q k 0

/-- Witness for the amended C2 at `N = 3`. -/
theorem C2_amended_retry_bound_witness :
    download_dataset (fun _ => .fail "boom") false 3 = (false, 3, 2) ∧
    call_llm_for_questions (fun _ => .fail "boom") 3 = (Option.none, 3, 2) ∧
    process_single_query (fun _ => .fail "boom") "q" 3 =
      ((Option.none, some ⟨"q", "boom"⟩), 3, 2) :=
  C2_amended_retry_bound 3 (by decide) _ _ (fun _ => "boom") (fun _ => "boom")
    "q" false (fun _ => rfl) (fun _ => rfl)

/-- C9: if every download attempt fails but the target local directory
already exists and is non-empty, `download_dataset` returns success. -/
theorem C9_download_preexisting_dir_success :
    ∀ (N : Nat), 1 ≤ N →
    ∀ (op : Nat → Attempt Unit) (e : Nat → String),
      (∀ n, op n = .fail (e n)) →
      (download_dataset op true N).1 = true := by
  intro N hN op e hop
  cases N with
  | zero => omega
  | succ k => simp [download_dataset, downloadLoop_allFail op e hop true k 0]

/-- Witness for C9 at `N = 3`. -/
theorem C9_download_preexisting_dir_success_witness :
    (download_dataset (fun _ => .fail "boom") true 3).1 = true :=
  C9_download_preexisting_dir_success 3 (by decide) _ (fun _ => "boom") (fun _ => rfl)

/-! ## Helper lemmas on the rag-query state machine -/

/-- Once `processed` is set, the release check is a no-op. -/
theorem rqAfterStore_processed (env : RQEnv) (st : RQState)
    (h : st.processed = true) :
    ragQueryAfterStore env st = ⟨st, [], .CONTINUE, 0⟩ := by
  unfold ragQueryAfterStore
  split
  · rw [h]
    simp
  · rfl

/-- One event delivered to a terminal rag-query operator: no output, no
task run, CONTINUE, `processed`, `config` and `funcs` untouched. -/
theorem rqStep_processed (env : RQEnv) (st : RQState) (ev : RQEvent)
    (h : st.processed = true) :
    (ragQueryOnEvent env st ev).outputs = [] ∧
    (ragQueryOnEvent env st ev).status = .CONTINUE ∧
    (ragQueryOnEvent env st ev).runs = 0 ∧
    (ragQueryOnEvent env st ev).state.processed = true ∧
    (ragQueryOnEvent env st ev).state.config = st.config ∧
    (ragQueryOnEvent env st ev).state.funcs = st.funcs := by
  cases ev with
  | input id payload =>
    simp only [ragQueryOnEvent]
    split_ifs with h1 h2 h3 h4
    · rw [rqAfterStore_processed env _ (by simpa using h)]; simp [h]
    · rw [rqAfterStore_processed env _ h]; simp [h]
    · rw [rqAfterStore_processed env _ (by simpa using h)]; simp [h]
    · rw [rqAfterStore_processed env _ h]; simp [h]
    · simp [h]
  | stop => simp [ragQueryOnEvent, h]
  | error => simp [ragQueryOnEvent, h]
  | unknown => simp [ragQueryOnEvent, h]

/-- A run of any events from a terminal rag-query state performs no task
runs and emits nothing. -/
theorem rqRun_processed (env : RQEnv) :
    ∀ (evs : List RQEvent) (st : RQState), st.processed = true →
      (ragQueryRun env st evs).2.2 = 0 ∧ (ragQueryRun env st evs).2.1 = [] := by
  intro evs
  induction evs with
  | nil => intro st h; simp [ragQueryRun]
  | cons ev rest ih =>
    intro st h
    obtain ⟨ho, _, hr, hp, _, _⟩ := rqStep_processed env st ev h
    obtain ⟨ih1, ih2⟩ := ih (ragQueryOnEvent env st ev).state hp
    simp [ragQueryRun, ho, hr, ih1, ih2]

/-- C1 counterexample: the rag-query operator, already terminal
(`processed = true`), receives a further `Input` on
`generated_questions_file` whose payload passes the file check; it
returns CONTINUE and emits nothing, but its state changes — the stored
questions-file path is updated. -/
theorem C1_counterexample :
    (ragQueryOnEvent
        { isfile := fun _ => true, isdir := fun _ => true,
          loadConfigOk := true, setupFuncsOk := true,
          taskResult := fun _ _ => (Option.none, Option.none) }
        { config := true, funcs := true, questionsFile := Option.none,
          ragIndexDir := Option.none, processed := true }
        (.input "generated_questions_file" "late.txt")).state ≠
      { config := true, funcs := true, questionsFile := Option.none,
        ragIndexDir := Option.none, processed := true } ∧
    (ragQueryOnEvent
        { isfile := fun _ => true, isdir := fun _ => true,
          loadConfigOk := true, setupFuncsOk := true,
          taskResult := fun _ _ => (Option.none, Option.none) }
        { config := true, funcs := true, questionsFile := Option.none,
          ragIndexDir := Option.none, processed := true }
        (.input "generated_questions_file" "late.txt")).state.questionsFile =
      some "late.txt" := by
  constructor
  · decide
  · rfl

/-- C1 (amended): after an operator reaches its terminal state, every
further `Input` event emits no output, runs no processing, and returns
CONTINUE; the data-prep, question-gen and result-logger operators also
leave their state unchanged, while the rag-query operator keeps
`processed`, `config` and `funcs` unchanged but may still overwrite its
stored input paths with a newly offered valid payload. -/
theorem C1_amended_terminal_noop :
    (∀ (env : DPEnv) (st : DPState) (ev : DPEvent),
      st.processed = true → dataPrepOnEvent env st ev = ⟨st, [], .CONTINUE, 0⟩) ∧
    (∀ (env : QGEnv) (st : QGState) (ev : DPEvent),
      st.processed = true → questionGenOnEvent env st ev = ⟨st, [], .CONTINUE, 0⟩) ∧
    (∀ (st : RLState) (ev : DPEvent),
      st.processed = true → resultLoggerOnEvent st ev = ⟨st, [], .CONTINUE, 0⟩) ∧
    (∀ (env : RQEnv) (st : RQState) (ev : RQEvent),
      st.processed = true →
      (ragQueryOnEvent env st ev).outputs = [] ∧
      (ragQueryOnEvent env st ev).status = .CONTINUE ∧
      (ragQueryOnEvent env st ev).runs = 0 ∧
      (ragQueryOnEvent env st ev).state.processed = true ∧
      (ragQueryOnEvent env st ev).state.config = st.config ∧
      (ragQueryOnEvent env st ev).state.funcs = st.funcs) := by
  refine ⟨?_, ?_, ?_, ?_⟩
  · intro env st ev h
    cases ev <;> simp [dataPrepOnEvent, h]
  · intro env st ev h
    cases ev with
    | input id =>
      by_cases hid : id == "unique_contexts_dir" <;>
        simp [questionGenOnEvent, hid, h]
    | stop => rfl
    | error => rfl
    | unknown => rfl
  · intro st ev h
    cases ev <;> simp [resultLoggerOnEvent, h]
  · intro env st ev h
    exact rqStep_processed env st ev h

/-- Witness for the amended C1 at concrete terminal states. -/
theorem C1_amended_terminal_noop_witness :
    dataPrepOnEvent
        ⟨some ⟨"dl", "out", false⟩, true, false, false⟩
        ⟨Option.none, true⟩ (.input "tick") =
      ⟨⟨Option.none, true⟩, [], .CONTINUE, 0⟩ ∧
    questionGenOnEvent ⟨true, true, some "q.txt"⟩ ⟨true, true, true⟩
        (.input "unique_contexts_dir") =
      ⟨⟨true, true, true⟩, [], .CONTINUE, 0⟩ ∧
    resultLoggerOnEvent ⟨true⟩ (.input "query_results") =
      ⟨⟨true⟩, [], .CONTINUE, 0⟩ ∧
    (ragQueryOnEvent
        { isfile := fun _ => true, isdir := fun _ => true,
          loadConfigOk := true, setupFuncsOk := true,
          taskResult := fun _ _ => (some "r.json", some "e.json") }
        { config := true, funcs := true, questionsFile := some "q.txt",
          ragIndexDir := some "idx", processed := true }
        (.input "rag_index_dir" "idx2")).outputs = [] :=
  ⟨C1_amended_terminal_noop.1 _ _ _ rfl,
   C1_amended_terminal_noop.2.1 _ _ _ rfl,
   C1_amended_terminal_noop.2.2.1 _ _ rfl,
   (C1_amended_terminal_noop.2.2.2 _ _ _ rfl).1⟩

/-- C3: from the initial state, one offered input alone (either of the
two) does not start processing; after both required inputs have been
offered with valid payloads — in either arrival order — processing starts
exactly once, no matter what events follow; and an input whose id is
outside the required set leaves the state, outputs and status entirely
unchanged. -/
theorem C3_join_barrier :
    (∀ (env : RQEnv) (qp : String),
      (ragQueryRun env rqInit [.input "generated_questions_file" qp]).2.2 = 0) ∧
    (∀ (env : RQEnv) (rp : String),
      (ragQueryRun env rqInit [.input "rag_index_dir" rp]).2.2 = 0) ∧
    (∀ (env : RQEnv) (qp rp : String) (evs : List RQEvent),
      env.isfile qp = true → env.isdir rp = true →
      env.loadConfigOk = true → env.setupFuncsOk = true →
      (ragQueryRun env rqInit
        (.input "generated_questions_file" qp :: .input "rag_index_dir" rp :: evs)).2.2 = 1 ∧
      (ragQueryRun env rqInit
        (.input "rag_index_dir" rp :: .input "generated_questions_file" qp :: evs)).2.2 = 1) ∧
    (∀ (env : RQEnv) (st : RQState) (id payload : String),
      id ≠ "generated_questions_file" → id ≠ "rag_index_dir" →
      ragQueryOnEvent env st (.input id payload) = ⟨st, [], .CONTINUE, 0⟩) := by
  refine ⟨?_, ?_, ?_, ?_⟩
  · intro env qp
    by_cases hf : env.isfile qp = true <;>
      simp [ragQueryRun, ragQueryOnEvent, ragQueryAfterStore, rqInit, hf]
  · intro env rp
    by_cases hd : env.isdir rp = true <;>
      simp [ragQueryRun, ragQueryOnEvent, ragQueryAfterStore, rqInit, hd]
  · intro env qp rp evs hf hd hc hs
    constructor
    · have h1 : ragQueryOnEvent env rqInit (.input "generated_questions_file" qp) =
          ⟨⟨false, false, some qp, Option.none, false⟩, [], .CONTINUE, 0⟩ := by
        simp [ragQueryOnEvent, ragQueryAfterStore, rqInit, hf]
      have h2 := rqRun_processed env evs
      rcases htr : env.taskResult qp rp with ⟨a, b⟩
      have h3 : (ragQueryOnEvent env ⟨false, false, some qp, Option.none, false⟩
          (.input "rag_index_dir" rp)).runs = 1 ∧
          (ragQueryOnEvent env ⟨false, false, some qp, Option.none, false⟩
          (.input "rag_index_dir" rp)).state.processed = true := by
        cases a <;> cases b <;>
          simp [ragQueryOnEvent, ragQueryAfterStore, hd, hc, hs, htr]
      simp only [ragQueryRun, h1]
      obtain ⟨h2a, _⟩ := h2 _ h3.2
      simp [h3.1, h2a]
    · have h1 : ragQueryOnEvent env rqInit (.input "rag_index_dir" rp) =
          ⟨⟨false, false, Option.none, some rp, false⟩, [], .CONTINUE, 0⟩ := by
        simp [ragQueryOnEvent, ragQueryAfterStore, rqInit, hd]
      have h2 := rqRun_processed env evs
      rcases htr : env.taskResult qp rp with ⟨a, b⟩
      have h3 : (ragQueryOnEvent env ⟨false, false, Option.none, some rp, false⟩
          (.input "generated_questions_file" qp)).runs = 1 ∧
          (ragQueryOnEvent env ⟨false, false, Option.none, some rp, false⟩
          (.input "generated_questions_file" qp)).state.processed = true := by
        cases a <;> cases b <;>
          simp [ragQueryOnEvent, ragQueryAfterStore, hf, hc, hs, htr]
      simp only [ragQueryRun, h1]
      obtain ⟨h2a, _⟩ := h2 _ h3.2
      simp [h3.1, h2a]
  · intro env st id payload h1 h2
    simp [ragQueryOnEvent, h1, h2]

/-- Witness for C3 at a concrete environment and payloads. -/
theorem C3_join_barrier_witness :
    (ragQueryRun
      { isfile := fun _ => true, isdir := fun _ => true,
        loadConfigOk := true, setupFuncsOk := true,
        taskResult := fun _ _ => (some "r.json", some "e.json") }
      rqInit [.input "generated_questions_file" "q.txt"]).2.2 = 0 ∧
    (ragQueryRun
      { isfile := fun _ => true, isdir := fun _ => true,
        loadConfigOk := true, setupFuncsOk := true,
        taskResult := fun _ _ => (some "r.json", some "e.json") }
      rqInit
      [.input "rag_index_dir" "idx", .input "generated_questions_file" "q.txt"]).2.2 = 1 ∧
    ragQueryOnEvent
      { isfile := fun _ => true, isdir := fun _ => true,
        loadConfigOk := true, setupFuncsOk := true,
        taskResult := fun _ _ => (some "r.json", some "e.json") }
      rqInit (.input "stray_channel" "x") = ⟨rqInit, [], .CONTINUE, 0⟩ :=
  ⟨C3_join_barrier.1 _ "q.txt",
   ((C3_join_barrier.2.2.1 _ "q.txt" "idx" [] rfl rfl rfl rfl).2),
   C3_join_barrier.2.2.2 _ _ "stray_channel" "x" (by decide) (by decide)⟩

/-- C5 counterexample: the data-prep operator hits a configuration-load
failure on its first `Input` event; it emits no output and returns STOP,
but its `completed`/`processed` flag is NOT set to true. -/
theorem C5_counterexample :
    dataPrepOnEvent ⟨Option.none, false, false, false⟩ dpInit (.input "tick") =
      ⟨dpInit, [], .STOP, 0⟩ ∧ dpInit.processed = false := by
  exact ⟨rfl, rfl⟩

/-- C5 (amended): every fatal failure during an `Input` event emits no
output and returns STOP; a stage-logic failure additionally sets the
completed flag to true, but a configuration-load or
dependency-initialization failure returns STOP with the completed flag
left false. -/
theorem C5_amended_failure_paths :
    (∀ (env : DPEnv) (st : DPState) (id : String),
      st.processed = false → st.config = Option.none → env.loadConfig = Option.none →
      dataPrepOnEvent env st (.input id) = ⟨st, [], .STOP, 0⟩) ∧
    (∀ (env : DPEnv) (st : DPState) (cfg : DPConfig) (id : String),
      st.processed = false → st.config = some cfg → env.mainLogicRaises = true →
      dataPrepOnEvent env st (.input id) = ⟨⟨some cfg, true⟩, [], .STOP, 1⟩) ∧
    (∀ (env : DPEnv) (st : DPState) (cfg : DPConfig) (id : String),
      st.processed = false → st.config = some cfg → env.mainLogicRaises = false →
      cfg.skipDownload = false → env.downloadResult = false →
      dataPrepOnEvent env st (.input id) = ⟨⟨some cfg, true⟩, [], .STOP, 1⟩) ∧
    (∀ (env : QGEnv) (st : QGState),
      st.processed = false → st.config = false → env.loadConfigOk = false →
      questionGenOnEvent env st (.input "unique_contexts_dir") = ⟨st, [], .STOP, 0⟩) ∧
    (∀ (env : QGEnv) (st : QGState),
      st.processed = false → st.deps = false →
      env.loadConfigOk = true → env.setupDepsOk = false →
      questionGenOnEvent env st (.input "unique_contexts_dir") =
        ⟨⟨true, false, false⟩, [], .STOP, 0⟩) ∧
    (∀ (env : QGEnv) (st : QGState),
      st.processed = false → env.loadConfigOk = true → env.setupDepsOk = true →
      env.taskResult = Option.none →
      questionGenOnEvent env st (.input "unique_contexts_dir") =
        ⟨⟨true, true, true⟩, [], .STOP, 1⟩) ∧
    (∀ (env : RQEnv) (st : RQState) (qf rd : String),
      st.questionsFile = some qf → st.ragIndexDir = Option.none → st.processed = false →
      st.config = false → env.isdir rd = true → env.loadConfigOk = false →
      ragQueryOnEvent env st (.input "rag_index_dir" rd) =
        ⟨⟨false, st.funcs, some qf, some rd, false⟩, [], .STOP, 0⟩) ∧
    (∀ (env : RQEnv) (st : RQState) (qf rd : String),
      st.questionsFile = some qf → st.ragIndexDir = Option.none → st.processed = false →
      st.funcs = false → env.isdir rd = true →
      env.loadConfigOk = true → env.setupFuncsOk = false →
      ragQueryOnEvent env st (.input "rag_index_dir" rd) =
        ⟨⟨true, false, some qf, some rd, false⟩, [], .STOP, 0⟩) ∧
    (∀ (env : RQEnv) (st : RQState) (qf rd : String),
      st.questionsFile = some qf → st.ragIndexDir = Option.none → st.processed = false →
      env.isdir rd = true → env.loadConfigOk = true → env.setupFuncsOk = true →
      (env.taskResult qf rd).1 = Option.none →
      ragQueryOnEvent env st (.input "rag_index_dir" rd) =
        ⟨⟨true, true, some qf, some rd, true⟩, [], .STOP, 1⟩) := by
  refine ⟨?_, ?_, ?_, ?_, ?_, ?_, ?_, ?_, ?_⟩
  · intro env st id h1 h2 h3
    simp [dataPrepOnEvent, h1, h2, h3]
  · intro env st cfg id h1 h2 h3
    simp [dataPrepOnEvent, h1, h2, h3]
  · intro env st cfg id h1 h2 h3 h4 h5
    simp [dataPrepOnEvent, h1, h2, h3, h4, h5]
  · intro env st h1 h2 h3
    simp [questionGenOnEvent, h1, h2, h3]
  · intro env st h1 h2 h3 h4
    simp [questionGenOnEvent, h1, h2, h3, h4]
  · intro env st h1 h2 h3 h4
    simp [questionGenOnEvent, h1, h2, h3, h4]
  · intro env st qf rd h1 h2 h3 h4 h5 h6
    simp [ragQueryOnEvent, ragQueryAfterStore, h1, h2, h3, h4, h5, h6]
  · intro env st qf rd h1 h2 h3 h4 h5 h6 h7
    simp [ragQueryOnEvent, ragQueryAfterStore, h1, h2, h3, h4, h5, h6, h7]
  · intro env st qf rd h1 h2 h3 h4 h5 h6 h7
    rcases htr : env.taskResult qf rd with ⟨a, b⟩
    rw [htr] at h7
    simp only at h7
    subst h7
    cases b <;>
      simp [ragQueryOnEvent, ragQueryAfterStore, h1, h2, h3, h4, h5, h6, htr]

/-- Witness for the amended C5 at concrete failing environments. -/
theorem C5_amended_failure_paths_witness :
    dataPrepOnEvent ⟨Option.none, true, true, false⟩ dpInit (.input "go") =
      ⟨dpInit, [], .STOP, 0⟩ ∧
    dataPrepOnEvent ⟨some ⟨"dl", "out", false⟩, true, true, true⟩
        ⟨some ⟨"dl", "out", false⟩, false⟩ (.input "go") =
      ⟨⟨some ⟨"dl", "out", false⟩, true⟩, [], .STOP, 1⟩ ∧
    dataPrepOnEvent ⟨some ⟨"dl", "out", false⟩, false, false, false⟩
        ⟨some ⟨"dl", "out", false⟩, false⟩ (.input "go") =
      ⟨⟨some ⟨"dl", "out", false⟩, true⟩, [], .STOP, 1⟩ ∧
    questionGenOnEvent ⟨false, true, some "q.txt"⟩ qgInit (.input "unique_contexts_dir") =
      ⟨qgInit, [], .STOP, 0⟩ ∧
    questionGenOnEvent ⟨true, false, some "q.txt"⟩ qgInit (.input "unique_contexts_dir") =
      ⟨⟨true, false, false⟩, [], .STOP, 0⟩ ∧
    questionGenOnEvent ⟨true, true, Option.none⟩ qgInit (.input "unique_contexts_dir") =
      ⟨⟨true, true, true⟩, [], .STOP, 1⟩ ∧
    ragQueryOnEvent
      { isfile := fun _ => true, isdir := fun _ => true,
        loadConfigOk := false, setupFuncsOk := true,
        taskResult := fun _ _ => (some "r", some "e") }
      ⟨false, false, some "q.txt", Option.none, false⟩ (.input "rag_index_dir" "idx") =
      ⟨⟨false, false, some "q.txt", some "idx", false⟩, [], .STOP, 0⟩ ∧
    ragQueryOnEvent
      { isfile := fun _ => true, isdir := fun _ => true,
        loadConfigOk := true, setupFuncsOk := false,
        taskResult := fun _ _ => (some "r", some "e") }
      ⟨false, false, some "q.txt", Option.none, false⟩ (.input "rag_index_dir" "idx") =
      ⟨⟨true, false, some "q.txt", some "idx", false⟩, [], .STOP, 0⟩ ∧
    ragQueryOnEvent
      { isfile := fun _ => true, isdir := fun _ => true,
        loadConfigOk := true, setupFuncsOk := true,
        taskResult := fun _ _ => (Option.none, some "e") }
      ⟨false, false, some "q.txt", Option.none, false⟩ (.input "rag_index_dir" "idx") =
      ⟨⟨true, true, some "q.txt", some "idx", true⟩, [], .STOP, 1⟩ :=
  ⟨C5_amended_failure_paths.1 _ _ "go" rfl rfl rfl,
   C5_amended_failure_paths.2.1 _ _ _ "go" rfl rfl rfl,
   C5_amended_failure_paths.2.2.1 _ _ _ "go" rfl rfl rfl rfl rfl,
   C5_amended_failure_paths.2.2.2.1 _ _ rfl rfl rfl,
   C5_amended_failure_paths.2.2.2.2.1 _ _ rfl rfl rfl rfl,
   C5_amended_failure_paths.2.2.2.2.2.1 _ _ rfl rfl rfl rfl,
   C5_amended_failure_paths.2.2.2.2.2.2.1 _ _ "q.txt" "idx" rfl rfl rfl rfl rfl rfl,
   C5_amended_failure_paths.2.2.2.2.2.2.2.1 _ _ "q.txt" "idx" rfl rfl rfl rfl rfl rfl rfl,
   C5_amended_failure_paths.2.2.2.2.2.2.2.2 _ _ "q.txt" "idx" rfl rfl rfl rfl rfl rfl rfl⟩

/-- C6: while the barrier is still waiting, an offered payload that fails
its validity check (not an existing file for the questions channel, not
an existing directory for the index channel) is not recorded, the
operator neither fails nor stops (state unchanged, no output, CONTINUE),
and a later valid delivery for the same input id still releases the
barrier and starts processing. -/
theorem C6_invalid_offer_keeps_waiting :
    (∀ (env : RQEnv) (st : RQState) (p : String),
      (st.questionsFile = Option.none ∨ st.ragIndexDir = Option.none) →
      env.isfile p = false →
      ragQueryOnEvent env st (.input "generated_questions_file" p) =
        ⟨st, [], .CONTINUE, 0⟩) ∧
    (∀ (env : RQEnv) (st : RQState) (p : String),
      (st.questionsFile = Option.none ∨ st.ragIndexDir = Option.none) →
      env.isdir p = false →
      ragQueryOnEvent env st (.input "rag_index_dir" p) =
        ⟨st, [], .CONTINUE, 0⟩) ∧
    (∀ (env : RQEnv) (st : RQState) (p1 p2 rd : String),
      st.questionsFile = Option.none → st.ragIndexDir = some rd →
      st.processed = false →
      env.isfile p1 = false → env.isfile p2 = true →
      env.loadConfigOk = true → env.setupFuncsOk = true →
      (ragQueryRun env st
        [.input "generated_questions_file" p1,
         .input "generated_questions_file" p2]).2.2 = 1) := by
  refine ⟨?_, ?_, ?_⟩
  · intro env st p hw hf
    rcases hw with hw | hw <;>
      simp [ragQueryOnEvent, ragQueryAfterStore, hf, hw]
  · intro env st p hw hd
    rcases hw with hw | hw
    · cases hrd : st.ragIndexDir with
      | none => simp [ragQueryOnEvent, ragQueryAfterStore, hd, hw, hrd]
      | some rd => simp [ragQueryOnEvent, ragQueryAfterStore, hd, hw, hrd]
    · simp [ragQueryOnEvent, ragQueryAfterStore, hd, hw]
  · intro env st p1 p2 rd h1 h2 h3 hf1 hf2 hc hs
    have e1 : ragQueryOnEvent env st (.input "generated_questions_file" p1) =
        ⟨st, [], .CONTINUE, 0⟩ := by
      simp [ragQueryOnEvent, ragQueryAfterStore, hf1, h1]
    rcases htr : env.taskResult p2 rd with ⟨a, b⟩
    have e2 : (ragQueryOnEvent env st (.input "generated_questions_file" p2)).runs = 1 := by
      cases a <;> cases b <;>
        simp [ragQueryOnEvent, ragQueryAfterStore, hf2, h1, h2, h3, hc, hs, htr]
    simp [ragQueryRun, e1, e2]

/-- Witness for C6 at a concrete waiting state. -/
theorem C6_invalid_offer_keeps_waiting_witness :
    ragQueryOnEvent
      { isfile := fun _ => false, isdir := fun _ => false,
        loadConfigOk := true, setupFuncsOk := true,
        taskResult := fun _ _ => (some "r", some "e") }
      rqInit (.input "generated_questions_file" "missing.txt") =
      ⟨rqInit, [], .CONTINUE, 0⟩ ∧
    ragQueryOnEvent
      { isfile := fun _ => false, isdir := fun _ => false,
        loadConfigOk := true, setupFuncsOk := true,
        taskResult := fun _ _ => (some "r", some "e") }
      rqInit (.input "rag_index_dir" "missing_dir") =
      ⟨rqInit, [], .CONTINUE, 0⟩ ∧
    (ragQueryRun
      { isfile := fun p => p == "good.txt", isdir := fun _ => true,
        loadConfigOk := true, setupFuncsOk := true,
        taskResult := fun _ _ => (some "r", some "e") }
      ⟨false, false, Option.none, some "idx", false⟩
      [.input "generated_questions_file" "bad.txt",
       .input "generated_questions_file" "good.txt"]).2.2 = 1 :=
  ⟨C6_invalid_offer_keeps_waiting.1 _ _ "missing.txt" (Or.inl rfl) rfl,
   C6_invalid_offer_keeps_waiting.2.1 _ _ "missing_dir" (Or.inl rfl) rfl,
   C6_invalid_offer_keeps_waiting.2.2 _ _ "bad.txt" "good.txt" "idx"
     rfl rfl rfl rfl rfl rfl rfl⟩

/-- C8 counterexample: persisting the errors list fails with a
serialization `TypeError` and the degraded `default=str` write would
succeed, yet the code records no errors path (fatal), while the claimed
behaviour would keep the path via the fallback. -/
theorem C8_counterexample :
    saveErrors ⟨.ok, true, .typeError "Object of type X is not JSON serializable", true⟩
        "errors.json" = Option.none ∧
    saveErrorsClaimed ⟨.ok, true, .typeError "Object of type X is not JSON serializable", true⟩
        "errors.json" = some "errors.json" :=
  ⟨rfl, rfl⟩

/-- C8 (amended): when persisting the query results fails with a
serialization `TypeError`, a degraded `default=str` write is attempted
and the run loses its results path only if that fallback also fails (any
other write failure is immediately fatal); persisting the errors list has
no degraded fallback — any write failure immediately yields no errors
path. -/
theorem C8_amended_degraded_write :
    ∀ (env : SaveEnv) (p : String),
      (env.resultsWrite = .ok → saveResults env p = some p) ∧
      (∀ m, env.resultsWrite = .typeError m →
        saveResults env p = if env.resultsFallbackOk then some p else Option.none) ∧
      (∀ m, env.resultsWrite = .otherError m → saveResults env p = Option.none) ∧
      (env.errorsWrite = .ok → saveErrors env p = some p) ∧
      (∀ m, env.errorsWrite = .typeError m → saveErrors env p = Option.none) ∧
      (∀ m, env.errorsWrite = .otherError m → saveErrors env p = Option.none) := by
  intro env p
  refine ⟨?_, ?_, ?_, ?_, ?_, ?_⟩
  · intro h; simp [saveResults, h]
  · intro m h; simp [saveResults, h]
  · intro m h; simp [saveResults, h]
  · intro h; simp [saveErrors, h]
  · intro m h; simp [saveErrors, h]
  · intro m h; simp [saveErrors, h]

/-- Witness for the amended C8 at a concrete environment. -/
theorem C8_amended_degraded_write_witness :
    saveResults ⟨.typeError "m", true, .typeError "m", true⟩ "results.json" =
      some "results.json" ∧
    saveErrors ⟨.typeError "m", true, .typeError "m", true⟩ "results.json" =
      Option.none :=
  ⟨(C8_amended_degraded_write ⟨.typeError "m", true, .typeError "m", true⟩
      "results.json").2.1 "m" rfl,
   (C8_amended_degraded_write ⟨.typeError "m", true, .typeError "m", true⟩
      "results.json").2.2.2.2.1 "m" rfl⟩
